import Mathlib

/-!
Verification of the `moderngl` binding layer, `src/moderngl/framebuffer.py`.

The Python class `Framebuffer` is a thin wrapper around an opaque native
driver object stored in the slot `mglo`.  We embed the wrapper faithfully:

* Python float arguments are modelled as `Rat` (the wrapper performs no
  floating-point arithmetic on them, it only tuples and forwards them, so
  the choice of number type is immaterial to the claims).
* Python sequences are modelled as `List`; the `tuple(...)` coercion the
  wrapper applies is the identity on the element list.
* A Python method that may raise is modelled as returning
  `List DriverCall × Except PyError _`: the driver calls it issued paired
  with either its result or the exception it raised.  An operation that
  raises before touching the driver returns `([], .error e)`.

The native object `mglo` is code of this repository that is not under
`src/`; where a claim depends on its behaviour, the corresponding
definition is modelled from the spec and marked `Modelled from the spec:`
in its doc comment.
-/

/-- Exceptions the binding layer can raise (`TypeError`, `ValueError`). -/
inductive PyError
  | typeError
  | valueError
deriving DecidableEq, Repr

/-- A color or depth attachment: a Texture or a Renderbuffer, identified by
its driver object id.  A framebuffer references attachments, it does not
own them. -/
inductive Attachment
  | texture (id : Int)
  | renderbuffer (id : Int)
deriving DecidableEq, Repr

/-- A call forwarded to the underlying graphics driver.  `glClearIssued`
records the channel values, the depth value and the scissor rectangle the
clear is scoped to (`none` = whole target / persistent scissor).
`mgloRead` and `mgloReadInto` record the arguments forwarded verbatim by
`Framebuffer.read` / `Framebuffer.read_into`. -/
inductive DriverCall
  | glViewport (x y w h : Int)
  | glScissor (x y w h : Int)
  | glColorMask (r g b a : Bool)
  | glDepthMask (d : Bool)
  | glClearIssued (red green blue alpha depth : Rat)
      (scissorRect : Option (Int × Int × Int × Int))
  | glBindFramebuffer (glo : Int)
  | mgloRead (viewport : Option (List Int)) (components attachment alignment : Int)
      (dtype : String)
  | mgloReadInto (buffer : Int) (viewport : Option (List Int))
      (components attachment alignment : Int) (dtype : String) (write_offset : Int)
deriving DecidableEq, Repr

/-- Modelled from the spec: the opaque native driver object stored in the
`mglo` slot.  Its source is not under `src/`; per the spec it holds the
current viewport and scissor 4-tuples, the color/depth write masks and the
framebuffer's own pixel size (used when the scissor is reset by `None`). -/
structure Mglo where
  viewport : Int × Int × Int × Int
  scissor : Int × Int × Int × Int
  colorMask : Bool × Bool × Bool × Bool
  depthMask : Bool
  fbWidth : Int
  fbHeight : Int
deriving DecidableEq, Repr

/-- The Python `Framebuffer` object: its `__slots__` are `mglo`,
`_color_attachments`, `_depth_attachment`, `_size`, `_samples`, `_glo`
(`ctx` and `extra` are modelled where needed).  Field names drop the
leading underscore. -/
structure Framebuffer where
  mglo : Mglo
  color_attachments : List Attachment
  depth_attachment : Option Attachment
  size : Int × Int
  samples : Int
  glo : Int
deriving DecidableEq, Repr

/-- `Framebuffer.width`: `return self._size[0]`. -/
def Framebuffer.width (fb : Framebuffer) : Int := fb.size.1

/-- `Framebuffer.height`: `return self._size[1]`. -/
def Framebuffer.height (fb : Framebuffer) : Int := fb.size.2

/-- Python's `__init__(self)` takes no arguments beyond `self`; calling the
class with any positional or keyword arguments fails the arity check with
a `TypeError` before the body runs, and with no arguments the body assigns
the slots to `None` placeholders and then executes `raise TypeError()`.
Either way no driver call is made and construction fails. -/
def Framebuffer.init {α : Type} (args : List α) (kwargs : List (String × α)) :
    List DriverCall × Except PyError Framebuffer :=
  match args, kwargs with
  | [], [] => ([], .error .typeError)
  | _, _ => ([], .error .typeError)

/-- Lift a result produced by an `mglo` operation back to the wrapper:
on success the new native state is stored back into the `mglo` slot, all
other slots of the `Framebuffer` are untouched. -/
def withMglo (fb : Framebuffer) (r : List DriverCall × Except PyError Mglo) :
    List DriverCall × Except PyError Framebuffer :=
  (r.1, r.2.map fun m => { fb with mglo := m })

/-- Modelled from the spec: the native `mglo.viewport` setter (not under
`src/`).  It accepts a 4-tuple, stores it as the current viewport and
forwards it to the driver without range validation; a tuple of any other
length is a shape mismatch, raised as a `TypeError` before any driver
call. -/
def Mglo.setViewport (m : Mglo) (v : List Int) :
    List DriverCall × Except PyError Mglo :=
  match v with
  | [x, y, w, h] => ([.glViewport x y w h], .ok { m with viewport := (x, y, w, h) })
  | _ => ([], .error .typeError)

/-- `Framebuffer.viewport` setter: `self.mglo.viewport = tuple(value)`.
The wrapper coerces the sequence to a tuple (identity on the element
list) and forwards it unchecked. -/
def Framebuffer.setViewport (fb : Framebuffer) (value : List Int) :
    List DriverCall × Except PyError Framebuffer :=
  withMglo fb (fb.mglo.setViewport value)

/-- `Framebuffer.viewport` getter: `return self.mglo.viewport`. -/
def Framebuffer.getViewport (fb : Framebuffer) : Int × Int × Int × Int :=
  fb.mglo.viewport

/-- Modelled from the spec: the native `mglo.scissor` setter (not under
`src/`).  `None` disables scissor testing, a shortcut for setting the
scissor values back to the framebuffer size `(0, 0, width, height)`;
a 4-tuple is stored verbatim; any other length is a shape mismatch,
raised as a `TypeError` before any driver call. -/
def Mglo.setScissor (m : Mglo) (v : Option (List Int)) :
    List DriverCall × Except PyError Mglo :=
  match v with
  | none =>
      ([.glScissor 0 0 m.fbWidth m.fbHeight],
        .ok { m with scissor := (0, 0, m.fbWidth, m.fbHeight) })
  | some [x, y, w, h] => ([.glScissor x y w h], .ok { m with scissor := (x, y, w, h) })
  | some _ => ([], .error .typeError)

/-- `Framebuffer.scissor` setter: `if value is None: self.mglo.scissor =
None  else: self.mglo.scissor = tuple(value)`. -/
def Framebuffer.setScissor (fb : Framebuffer) (value : Option (List Int)) :
    List DriverCall × Except PyError Framebuffer :=
  match value with
  | none => withMglo fb (fb.mglo.setScissor none)
  | some v => withMglo fb (fb.mglo.setScissor (some v))

/-- `Framebuffer.scissor` getter: `return self.mglo.scissor`. -/
def Framebuffer.getScissor (fb : Framebuffer) : Int × Int × Int × Int :=
  fb.mglo.scissor

/-- Modelled from the spec: the native `mglo.color_mask` setter; the mask
is forwarded directly, with no validation. -/
def Mglo.setColorMask (m : Mglo) (v : Bool × Bool × Bool × Bool) :
    List DriverCall × Except PyError Mglo :=
  ([.glColorMask v.1 v.2.1 v.2.2.1 v.2.2.2], .ok { m with colorMask := v })

/-- `Framebuffer.color_mask` setter: `self.mglo.color_mask = value`. -/
def Framebuffer.setColorMask (fb : Framebuffer) (value : Bool × Bool × Bool × Bool) :
    List DriverCall × Except PyError Framebuffer :=
  withMglo fb (fb.mglo.setColorMask value)

/-- Modelled from the spec: the native `mglo.depth_mask` setter; the mask
is forwarded directly, with no validation. -/
def Mglo.setDepthMask (m : Mglo) (v : Bool) :
    List DriverCall × Except PyError Mglo :=
  ([.glDepthMask v], .ok { m with depthMask := v })

/-- `Framebuffer.depth_mask` setter: `self.mglo.depth_mask = value`. -/
def Framebuffer.setDepthMask (fb : Framebuffer) (value : Bool) :
    List DriverCall × Except PyError Framebuffer :=
  withMglo fb (fb.mglo.setDepthMask value)

/-- The channel resolution step of `Framebuffer.clear`:

    if color is not None:
        red, green, blue, alpha, *_ = tuple(color) + (0.0, 0.0, 0.0, 0.0)

The padded tuple always has at least four elements, so the star-unpacking
never fails; the fallback branch of the match is unreachable. -/
def clearChannels (red green blue alpha : Rat) (color : Option (List Rat)) :
    Rat × Rat × Rat × Rat :=
  match color with
  | none => (red, green, blue, alpha)
  | some c =>
      match c ++ [0, 0, 0, 0] with
      | r :: g :: b :: a :: _ => (r, g, b, a)
      | _ => (red, green, blue, alpha)

/-- Modelled from the spec: the native `mglo.clear` (not under `src/`).
Per the spec and the wrapper's docstring, a 2-tuple viewport `(w, h)` is
normalized to `(0, 0, w, h)`, a 4-tuple is used verbatim, and `None`
leaves the persistent scissor setting in charge; the clear is then issued
against the driver scoped to the resolved rectangle. -/
def mgloClear (red green blue alpha depth : Rat) (viewport : Option (List Int)) :
    List DriverCall × Except PyError Unit :=
  match viewport with
  | none => ([.glClearIssued red green blue alpha depth none], .ok ())
  | some [w, h] => ([.glClearIssued red green blue alpha depth (some (0, 0, w, h))], .ok ())
  | some [x, y, w, h] =>
      ([.glClearIssued red green blue alpha depth (some (x, y, w, h))], .ok ())
  | some _ => ([], .error .typeError)

/-- `Framebuffer.clear(red=0.0, green=0.0, blue=0.0, alpha=0.0, depth=1.0,
*, viewport=None, color=None)`: resolves the channels from `color` when
given, coerces a non-`None` viewport with `tuple(...)` (identity on the
element list) and calls `self.mglo.clear(red, green, blue, alpha, depth,
viewport)`.  No slot of the wrapper is assigned. -/
def Framebuffer.clear (fb : Framebuffer) (red green blue alpha depth : Rat)
    (viewport : Option (List Int)) (color : Option (List Rat)) :
    List DriverCall × Except PyError Framebuffer :=
  let ch := clearChannels red green blue alpha color
  let r := mgloClear ch.1 ch.2.1 ch.2.2.1 ch.2.2.2 depth viewport
  (r.1, r.2.map fun _ => fb)

/-- The owning context; its `fbo` attribute holds the currently active
framebuffer, overwritten on each `use()`. -/
structure Context where
  fbo : Option Framebuffer
deriving DecidableEq, Repr

/-- `Framebuffer.use()`: `self.ctx.fbo = self; self.mglo.use()` — assigns
this framebuffer as the context's active render target, then binds it in
the driver. -/
def Framebuffer.use (fb : Framebuffer) (ctx : Context) : Context × List DriverCall :=
  ({ ctx with fbo := some fb }, [.glBindFramebuffer fb.glo])

/-- `Framebuffer.read(viewport=None, components=3, *, attachment=0,
alignment=1, dtype='f1')`: forwards the arguments verbatim to
`self.mglo.read`; the returned bytes come from the driver and no slot of
the wrapper is assigned. -/
def Framebuffer.read (fb : Framebuffer) (viewport : Option (List Int))
    (components attachment alignment : Int) (dtype : String) :
    List DriverCall × Except PyError Framebuffer :=
  ([.mgloRead viewport components attachment alignment dtype], .ok fb)

/-- `Framebuffer.read_into(buffer, viewport=None, components=3, *,
attachment=0, alignment=1, dtype='f1', write_offset=0)`: unwraps a
`Buffer` argument to its `mglo`, then forwards everything verbatim to
`self.mglo.read_into`; no slot of the wrapper is assigned. -/
def Framebuffer.read_into (fb : Framebuffer) (buffer : Int)
    (viewport : Option (List Int)) (components attachment alignment : Int)
    (dtype : String) (write_offset : Int) :
    List DriverCall × Except PyError Framebuffer :=
  ([.mgloReadInto buffer viewport components attachment alignment dtype write_offset],
    .ok fb)

/-- The public mutating or driver-touching operations of `Framebuffer`
after construction, as one type, used to state field-immutability over
all of them at once. -/
inductive FbOp
  | setViewport (v : List Int)
  | setScissor (v : Option (List Int))
  | setColorMask (v : Bool × Bool × Bool × Bool)
  | setDepthMask (v : Bool)
  | clearOp (red green blue alpha depth : Rat) (viewport : Option (List Int))
      (color : Option (List Rat))
  | useOp (ctx : Context)
  | readOp (viewport : Option (List Int)) (components attachment alignment : Int)
      (dtype : String)
  | readIntoOp (buffer : Int) (viewport : Option (List Int))
      (components attachment alignment : Int) (dtype : String) (write_offset : Int)
deriving DecidableEq

/-- Dispatch one public operation on a framebuffer. -/
def applyOp (fb : Framebuffer) : FbOp → List DriverCall × Except PyError Framebuffer
  | .setViewport v => fb.setViewport v
  | .setScissor v => fb.setScissor v
  | .setColorMask v => fb.setColorMask v
  | .setDepthMask v => fb.setDepthMask v
  | .clearOp r g b a d vp c => fb.clear r g b a d vp c
  | .useOp ctx => ((fb.use ctx).2, .ok fb)
  | .readOp vp comps att al dt => fb.read vp comps att al dt
  | .readIntoOp buf vp comps att al dt off => fb.read_into buf vp comps att al dt off

/-- A concrete 4×4 framebuffer used by the closed witness theorems. -/
def sampleMglo : Mglo :=
  { viewport := (0, 0, 4, 4), scissor := (0, 0, 4, 4),
    colorMask := (true, true, true, true), depthMask := true,
    fbWidth := 4, fbHeight := 4 }

/-- A concrete framebuffer whose `mglo` size agrees with its `_size` slot,
as the `Context.framebuffer` factory guarantees. -/
def sampleFb : Framebuffer :=
  { mglo := sampleMglo, color_attachments := [.texture 1],
    depth_attachment := some (.renderbuffer 2), size := (4, 4),
    samples := 0, glo := 7 }

/-! ## Helper lemmas -/

/-- A `withMglo` result that succeeds only ever replaces the `mglo` slot. -/
theorem withMglo_ok_eq (fb fb2 : Framebuffer) (r : List DriverCall × Except PyError Mglo)
    (h : (withMglo fb r).2 = .ok fb2) : ∃ m, fb2 = { fb with mglo := m } := by
  rcases r with ⟨cs, e⟩
  cases e with
  | error err => simp [withMglo, Except.map] at h
  | ok m =>
      simp [withMglo, Except.map] at h
      exact ⟨m, h.symm⟩

/-- Mapping the constant function over an `Except` that succeeds returns
exactly that constant. -/
theorem map_const_ok {e : Except PyError Unit} {fb fb2 : Framebuffer}
    (h : e.map (fun _ => fb) = .ok fb2) : fb2 = fb := by
  cases e with
  | error err => simp [Except.map] at h
  | ok u =>
      simp [Except.map] at h
      exact h.symm

/-- The creation-time fields of the wrapper that the spec calls immutable:
size (hence width and height), samples, glo, color_attachments and
depth_attachment. -/
def fixedFields (fb fb2 : Framebuffer) : Prop :=
  fb2.size = fb.size ∧ fb2.width = fb.width ∧ fb2.height = fb.height ∧
    fb2.samples = fb.samples ∧ fb2.glo = fb.glo ∧
    fb2.color_attachments = fb.color_attachments ∧
    fb2.depth_attachment = fb.depth_attachment

/-! ## Claim theorems -/

/-- Claim C1: direct construction of a `Framebuffer` (calling the class
rather than the `Context` factory) fails with a `TypeError` for every
combination of positional and keyword arguments, and no driver call is
made. -/
theorem framebuffer_init_always_type_error {α : Type} (args : List α)
    (kwargs : List (String × α)) :
    Framebuffer.init args kwargs = ([], .error .typeError) := by
  cases args <;> cases kwargs <;> rfl

/-- Claim C2 counterexample: passing the explicit channel value `red = 1`
together with the conflicting color tuple `(1/2,)` (which specifies
`red = 1/2`) does NOT raise an argument error: `clear` succeeds and a
driver clear call is issued, with the color tuple's values overriding the
explicit channels. -/
theorem clear_conflicting_color_counterexample :
    sampleFb.clear 1 0 0 0 1 none (some [(1 : Rat)/2]) =
      ([.glClearIssued ((1 : Rat)/2) 0 0 0 1 none], .ok sampleFb) := rfl

/-- Claim C2 (amended): when both explicit channel values and a non-`None`
color sequence are given — conflicting or not — no error is raised; the
color sequence silently overrides `red`/`green`/`blue`/`alpha` (its first
four elements, padded on the right with `0.0`), and the clear proceeds as
if those overridden channels had been passed explicitly. -/
theorem clear_color_overrides (fb : Framebuffer) (r g b a d : Rat)
    (vp : Option (List Int)) (c : List Rat) :
    fb.clear r g b a d vp (some c) =
      fb.clear (c.getD 0 0) (c.getD 1 0) (c.getD 2 0) (c.getD 3 0) d vp none := by
  match c with
  | [] => rfl
  | [x] => rfl
  | [x, y] => rfl
  | [x, y, z] => rfl
  | x :: y :: z :: w :: t => rfl

/-- Claim C3: for every width `w` and height `h` (and any channel values,
depth and color argument), `clear` with the 2-tuple viewport `(w, h)`
behaves identically to `clear` with the 4-tuple viewport `(0, 0, w, h)`:
the 2-tuple is normalized to `(0, 0, w, h)` before the clear is issued. -/
theorem clear_viewport_two_tuple (fb : Framebuffer) (r g b a d : Rat)
    (color : Option (List Rat)) (w h : Int) :
    fb.clear r g b a d (some [w, h]) color =
      fb.clear r g b a d (some [0, 0, w, h]) color := rfl

/-- Claim C4: `clear(color=(r, g, b))`, all other arguments left at their
defaults, behaves identically to `clear(r, g, b, 0.0)`: the missing alpha
is padded with `0.0` and the depth argument keeps its default `1.0`. -/
theorem clear_color_three_tuple (fb : Framebuffer) (r g b : Rat) :
    fb.clear 0 0 0 0 1 none (some [r, g, b]) =
      fb.clear r g b 0 1 none none := rfl

/-- Claim C5: setting the viewport to a 4-element sequence
`(x, y, w, h)` succeeds, forwards it to the driver without range
validation, and reading the viewport back returns exactly that
4-tuple. -/
theorem viewport_set_get_roundtrip (fb : Framebuffer) (x y w h : Int) :
    ∃ fb2, fb.setViewport [x, y, w, h] = ([.glViewport x y w h], .ok fb2) ∧
      fb2.getViewport = (x, y, w, h) :=
  ⟨{ fb with mglo := { fb.mglo with viewport := (x, y, w, h) } }, rfl, rfl⟩

/-- Claim C6: for a framebuffer whose native size agrees with its `_size`
slot (as the `Context.framebuffer` factory guarantees), setting the
scissor to `None` succeeds and reading the scissor back returns the
full-size box `(0, 0, width, height)`; moreover setting the scissor to
`None` is the same operation as setting it to
`(0, 0, width, height)`. -/
theorem scissor_none_resets_to_size (fb : Framebuffer)
    (hw : fb.mglo.fbWidth = fb.width) (hh : fb.mglo.fbHeight = fb.height) :
    (∃ fb2, fb.setScissor none =
        ([.glScissor 0 0 fb.width fb.height], .ok fb2) ∧
      fb2.getScissor = (0, 0, fb.width, fb.height)) ∧
    fb.setScissor none = fb.setScissor (some [0, 0, fb.width, fb.height]) := by
  rw [← hw, ← hh]
  exact ⟨⟨{ fb with mglo :=
    { fb.mglo with scissor := (0, 0, fb.mglo.fbWidth, fb.mglo.fbHeight) } },
    rfl, rfl⟩, rfl⟩

/-- Witness for C6 at the concrete framebuffer `sampleFb`. -/
theorem scissor_none_resets_to_size_witness :
    (sampleFb.mglo.fbWidth = sampleFb.width ∧
      sampleFb.mglo.fbHeight = sampleFb.height) ∧
    ((∃ fb2, sampleFb.setScissor none =
        ([.glScissor 0 0 sampleFb.width sampleFb.height], .ok fb2) ∧
      fb2.getScissor = (0, 0, sampleFb.width, sampleFb.height)) ∧
    sampleFb.setScissor none =
      sampleFb.setScissor (some [0, 0, sampleFb.width, sampleFb.height])) :=
  ⟨⟨rfl, rfl⟩, scissor_none_resets_to_size sampleFb rfl rfl⟩

/-- Claim C7: a sequence whose length is not 4 passed to the viewport
setter, or to the scissor setter, raises a `TypeError` synchronously in
the binding layer with no driver call issued (the returned call list is
empty). -/
theorem shape_mismatch_type_error (fb : Framebuffer) (v : List Int)
    (h : v.length ≠ 4) :
    fb.setViewport v = ([], .error .typeError) ∧
      fb.setScissor (some v) = ([], .error .typeError) := by
  match v, h with
  | [], _ => exact ⟨rfl, rfl⟩
  | [a], _ => exact ⟨rfl, rfl⟩
  | [a, b], _ => exact ⟨rfl, rfl⟩
  | [a, b, c], _ => exact ⟨rfl, rfl⟩
  | [a, b, c, d], h => exact absurd rfl h
  | a :: b :: c :: d :: e :: t, _ => exact ⟨rfl, rfl⟩

/-- Witness for C7 at the concrete 3-element sequence `[1, 2, 3]`. -/
theorem shape_mismatch_type_error_witness :
    (([1, 2, 3] : List Int).length ≠ 4) ∧
      (sampleFb.setViewport [1, 2, 3] = ([], .error .typeError) ∧
        sampleFb.setScissor (some [1, 2, 3]) = ([], .error .typeError)) :=
  ⟨by decide, shape_mismatch_type_error sampleFb [1, 2, 3] (by decide)⟩

/-- Claim C8: after `use()` returns, the owning context's active
framebuffer is exactly the receiver, and a second `use()` on the same
context overwrites (never merges with) whatever framebuffer was active
before: the resulting context does not depend on the previous target. -/
theorem use_sets_active_target (fb prev : Framebuffer) (ctx : Context) :
    (fb.use ctx).1.fbo = some fb ∧
      (fb.use (prev.use ctx).1).1 = (fb.use ctx).1 :=
  ⟨rfl, rfl⟩

/-- Claim C9: every public operation after construction — the viewport,
scissor, color-mask and depth-mask setters, `clear`, `use`, `read` and
`read_into` — leaves the creation-time fields (size, width, height,
samples, glo, color_attachments, depth_attachment) unchanged whenever it
succeeds. -/
theorem ops_preserve_fields (fb : Framebuffer) (op : FbOp) (fb2 : Framebuffer)
    (h : (applyOp fb op).2 = .ok fb2) : fixedFields fb fb2 := by
  cases op with
  | setViewport v =>
      obtain ⟨m, rfl⟩ := withMglo_ok_eq fb fb2 _ h
      exact ⟨rfl, rfl, rfl, rfl, rfl, rfl, rfl⟩
  | setScissor v =>
      cases v with
      | none =>
          obtain ⟨m, rfl⟩ := withMglo_ok_eq fb fb2 _ h
          exact ⟨rfl, rfl, rfl, rfl, rfl, rfl, rfl⟩
      | some l =>
          obtain ⟨m, rfl⟩ := withMglo_ok_eq fb fb2 _ h
          exact ⟨rfl, rfl, rfl, rfl, rfl, rfl, rfl⟩
  | setColorMask v =>
      obtain ⟨m, rfl⟩ := withMglo_ok_eq fb fb2 _ h
      exact ⟨rfl, rfl, rfl, rfl, rfl, rfl, rfl⟩
  | setDepthMask v =>
      obtain ⟨m, rfl⟩ := withMglo_ok_eq fb fb2 _ h
      exact ⟨rfl, rfl, rfl, rfl, rfl, rfl, rfl⟩
  | clearOp r g b a d vp c =>
      obtain rfl := map_const_ok h
      exact ⟨rfl, rfl, rfl, rfl, rfl, rfl, rfl⟩
  | useOp ctx =>
      obtain rfl := Except.ok.inj h
      exact ⟨rfl, rfl, rfl, rfl, rfl, rfl, rfl⟩
  | readOp vp comps att al dt =>
      obtain rfl := Except.ok.inj h
      exact ⟨rfl, rfl, rfl, rfl, rfl, rfl, rfl⟩
  | readIntoOp buf vp comps att al dt off =>
      obtain rfl := Except.ok.inj h
      exact ⟨rfl, rfl, rfl, rfl, rfl, rfl, rfl⟩

/-- The framebuffer `sampleFb` after its viewport is set to
`(1, 2, 3, 4)`. -/
def sampleFb2 : Framebuffer :=
  { sampleFb with mglo := { sampleMglo with viewport := (1, 2, 3, 4) } }

/-- Witness for C9: the viewport setter applied to the concrete
framebuffer `sampleFb` succeeds and preserves the creation-time
fields. -/
theorem ops_preserve_fields_witness :
    (applyOp sampleFb (.setViewport [1, 2, 3, 4])).2 = .ok sampleFb2 ∧
      fixedFields sampleFb sampleFb2 :=
  ⟨rfl, ops_preserve_fields sampleFb (.setViewport [1, 2, 3, 4]) sampleFb2 rfl⟩

/-- Claim C10: for every sequence passed as the `color` argument of
`clear`, the effective channel values are the first four elements of the
sequence padded on the right with `0.0` (element `i` or `0.0` when the
sequence is shorter): extra components are silently ignored, an empty
sequence yields `(0, 0, 0, 0)`, the depth value is taken from the `depth`
argument and never from `color`, and no error is raised. -/
theorem clear_color_effective_channels (fb : Framebuffer) (c : List Rat)
    (r g b a d : Rat) :
    fb.clear r g b a d none (some c) =
      ([.glClearIssued (c.getD 0 0) (c.getD 1 0) (c.getD 2 0) (c.getD 3 0) d none],
        .ok fb) := by
  match c with
  | [] => rfl
  | [x] => rfl
  | [x, y] => rfl
  | [x, y, z] => rfl
  | x :: y :: z :: w :: t => rfl
